import Mathlib

/-!
Verification of the event reliability pipeline of the session-tracking
extension (`src/background.js`, class `BackgroundManager`).

The JavaScript code is shallowly embedded: the per-tab session map, the
settings object, the retry queue, the persisted copy of the retry queue,
the bounded local event log, and a ghost log of events received by the
collector are gathered in one record `St`.  Network outcomes and the
random jitter of the backoff are passed in as explicit oracles (a `Bool`
per delivery attempt, a `Nat` per jitter draw), and the wall clock
`Date.now()` is passed as an explicit `now : Nat` argument at every call,
so every operation is a pure function on `St`.
-/

namespace BackgroundMgr

/-- Counter block of a session record (`counters` in `initializeSession`). -/
structure Counters where
  keystrokes : Nat
  runs : Nat
  submissions : Nat
deriving Repr, DecidableEq

/-- Per-tab session record, as created by `initializeSession`
(background.js lines 197-215).  `endTime` and `totalWallTime` are absent
until `endSession` sets them, hence `Option`. -/
structure Session where
  url : Option String
  startTime : Nat
  wallStart : Nat
  lastActivity : Nat
  activeMs : Nat
  isActive : Bool
  focused : Bool
  counters : Counters
  finalVerdict : Option String
  problemId : Option String
  problemTitle : Option String
  expectedTime : Option Nat
  endTime : Option Nat
  totalWallTime : Option Nat
deriving Repr, DecidableEq

/-- User-configurable settings (constructor, lines 17-23). -/
structure Settings where
  backendUrl : String
  apiKey : String
  userId : String
  idleThreshold : Nat
  heartbeatInterval : Nat
deriving Repr, DecidableEq

/-- Fields that appear in the `data` object of posted events.  Each call
site of `safePostEvent` fills a subset of these; unset fields stay at
their defaults. -/
structure Payload where
  userId : String := ""
  problemId : Option String := none
  platform : String := ""
  event : String := ""
  focused : Option Bool := none
  activeMsSinceStart : Option Nat := none
  counters : Option Counters := none
  totalActiveMs : Option Nat := none
  totalWallTime : Option Nat := none
  finalVerdict : Option String := none
  verdict : Option String := none
deriving Repr, DecidableEq

/-- An entry of the retry queue (`queueForRetry`, lines 498-509).  The
`id` field has no JavaScript counterpart: it models the object identity
by which `processRetryQueue` removes items (`q !== item`); `queueForRetry`
always assigns a fresh one. -/
structure RetryItem where
  id : Nat
  eventType : String
  data : Payload
  tabId : Option Nat
  retryCount : Nat
  nextRetry : Nat
deriving Repr, DecidableEq

/-- The identity-free part of a retry item, used to state how the queue
grows without fixing the modelling `id`. -/
def itemCore (it : RetryItem) : String × Payload × Option Nat × Nat × Nat :=
  (it.eventType, it.data, it.tabId, it.retryCount, it.nextRetry)

/-- Whole background-manager state.  `sessions` embeds the
`activeSessions` map as an association list; `storedQueue` is the copy of
the retry queue persisted by `storeRetryQueue`; `events` is the bounded
local event log (`storeEvent`); `delivered` is a ghost log of the events
the collector has accepted (successful `postEvent` calls); `nextId`
supplies fresh retry-item identities. -/
structure St where
  sessions : List (Nat × Session)
  settings : Settings
  retryQueue : List RetryItem
  storedQueue : List RetryItem
  events : List (String × Payload × Nat)
  delivered : List (String × Payload)
  nextId : Nat
deriving Repr, DecidableEq

/-! ## Backend I/O -/

/-- Failure modes of `postEvent` (lines 453-478): the guard
`if (!this.settings.userId) throw` fires before the `fetch`, otherwise a
failed fetch / non-2xx response throws a delivery error. -/
inductive PostError where
  | configError
  | deliveryError
deriving Repr, DecidableEq

/-- Outcome of `postEvent`: fails fast with `configError` when `userId`
is empty — the connectivity oracle `netOk` is not even consulted —
otherwise succeeds or fails according to `netOk`. -/
def postEventResult (settings : Settings) (netOk : Bool) : Except PostError Unit :=
  if settings.userId = "" then Except.error PostError.configError
  else if netOk then Except.ok () else Except.error PostError.deliveryError

/-- Boolean form of `postEventResult` success. -/
def postEventOk (settings : Settings) (netOk : Bool) : Bool :=
  if settings.userId = "" then false else netOk

/-- Ghost step: a successful `postEvent` means the collector received the
event. -/
def recordDelivery (eventType : String) (data : Payload) (st : St) : St :=
  { st with delivered := st.delivered ++ [(eventType, data)] }

/-- Embeds `storeEvent` (lines 572-582): push the event, then
`events.splice(0, events.length - 100)` keeps only the last 100. -/
def storeEvent (eventType : String) (data : Payload) (now : Nat) (st : St) : St :=
  let es := st.events ++ [(eventType, data, now)]
  { st with events := if 100 < es.length then es.drop (es.length - 100) else es }

/-! ## Retry queue -/

/-- Embeds `getRetryDelay` (lines 492-496) with the random draw
`Math.floor(Math.random() * 1000)` passed in as `jitter`. -/
def getRetryDelay (retryCount jitter : Nat) : Nat :=
  min (1000 * 2 ^ retryCount) 30000 + jitter

/-- Embeds `storeRetryQueue` (lines 552-558): persist the in-memory
queue. -/
def storeRetryQueue (st : St) : St :=
  { st with storedQueue := st.retryQueue }

/-- Embeds `queueForRetry` (lines 498-509): push a fresh item with
`retryCount = 0` and first backoff delay, then persist the queue.  (The
`scheduleRetryProcessing` timer kick is outside the state model.) -/
def queueForRetry (eventType : String) (data : Payload) (tabId : Option Nat)
    (now jitter : Nat) (st : St) : St :=
  let item : RetryItem :=
    { id := st.nextId, eventType := eventType, data := data, tabId := tabId,
      retryCount := 0, nextRetry := now + getRetryDelay 0 jitter }
  storeRetryQueue { st with retryQueue := st.retryQueue ++ [item], nextId := st.nextId + 1 }

/-- Embeds `safePostEvent` (lines 480-488): try `postEvent`; on success
also `storeEvent`; on any failure — delivery or configuration — queue the
event for retry. -/
def safePostEvent (eventType : String) (data : Payload) (tabId : Option Nat)
    (netOk : Bool) (now jitter : Nat) (st : St) : St :=
  match postEventResult st.settings netOk with
  | Except.ok _ => storeEvent eventType data now (recordDelivery eventType data st)
  | Except.error _ => queueForRetry eventType data tabId now jitter st

/-- `maxRetries` constant of `processRetryQueue` (line 528). -/
def maxRetries : Nat := 5

/-- Eligibility filter of the sweep (line 530):
`it.nextRetry <= now && it.retryCount < maxRetries`. -/
def retryReady (now : Nat) (it : RetryItem) : Bool :=
  it.nextRetry ≤ now && it.retryCount < maxRetries

/-- Fate of one ready item inside the sweep loop (lines 533-547): on
success the item is removed (`none`); on failure `retryCount` is
incremented, `nextRetry` is recomputed from the new count (at wall time
`failAt`), and the item is dropped once the new count reaches
`maxRetries`. -/
def sweepFate (settings : Settings) (ok : Nat → Bool) (failAt jit : Nat → Nat)
    (it : RetryItem) : Option RetryItem :=
  if postEventOk settings (ok it.id) then none
  else if maxRetries ≤ it.retryCount + 1 then none
  else some
    { it with
      retryCount := it.retryCount + 1,
      nextRetry := failAt it.id + getRetryDelay (it.retryCount + 1) (jit it.id) }

/-- The retry queue after the sweep loop: each ready item is replaced by
its `sweepFate` (mutation in place / removal by object identity), items
that were not ready are untouched and keep their position. -/
def sweepQueue (settings : Settings) (now : Nat) (ok : Nat → Bool)
    (failAt jit : Nat → Nat) (l : List RetryItem) : List RetryItem :=
  l.filterMap (fun it =>
    if retryReady now it then sweepFate settings ok failAt jit it else some it)

/-- The events the collector accepts during the sweep loop: the ready
items whose `postEvent` succeeded, in queue order. -/
def sweepDelivered (settings : Settings) (now : Nat) (ok : Nat → Bool)
    (l : List RetryItem) : List (String × Payload) :=
  ((l.filter (retryReady now)).filter (fun it => postEventOk settings (ok it.id))).map
    (fun it => (it.eventType, it.data))

/-- Embeds `processRetryQueue` (lines 522-550).  The loop iterates the
`ready` selection, mutating each ready item in place and removing it by
object identity on success or on reaching `maxRetries`, and never touches
items that were not ready, so its net effect on the queue is `sweepQueue`
and its net effect on the collector is `sweepDelivered`; the queue is
persisted at the end.  The early returns (`!isOnline`, empty queue,
nothing ready) skip the persist step, exactly as in the source. -/
def processRetryQueue (online : Bool) (now : Nat) (ok : Nat → Bool)
    (failAt jit : Nat → Nat) (st : St) : St :=
  if online = false then st
  else if st.retryQueue.isEmpty then st
  else if (st.retryQueue.filter (retryReady now)).isEmpty then st
  else
    storeRetryQueue
      { st with
        retryQueue := sweepQueue st.settings now ok failAt jit st.retryQueue,
        delivered := st.delivered ++ sweepDelivered st.settings now ok st.retryQueue }

/-! ## Session registry -/

/-- Hostname matching of `platformFromUrl` (lines 266-274), with
`new URL(url).hostname.includes(...)` approximated by substring matching
on the whole url (the url value is irrelevant to every claim below). -/
def platformFromUrl (url : Option String) : String :=
  match url with
  | none => "unknown"
  | some u =>
    if 1 < (u.splitOn "leetcode.com").length then "leetcode"
    else if 1 < (u.splitOn "geeksforgeeks.org").length then "geeksforgeeks"
    else if 1 < (u.splitOn "hackerrank.com").length then "hackerrank"
    else "unknown"

/-- Replace the session stored under `tabId` (mutation of the map entry in
place — key set unchanged, order preserved). -/
def setSession (tabId : Nat) (s : Session) (sessions : List (Nat × Session)) :
    List (Nat × Session) :=
  sessions.map (fun p => if p.1 = tabId then (p.1, s) else p)

/-- The body of `markActivity` on the session record it found (lines
249-256): accrue the gap since `lastActivity` when the session is active,
focused and the gap is under the idle threshold, and stamp `lastActivity`
with `now` in every case. -/
def markActivitySession (idleThreshold now : Nat) (s : Session) : Session :=
  let s :=
    if s.isActive && s.focused && decide (now - s.lastActivity < idleThreshold) then
      { s with activeMs := s.activeMs + (now - s.lastActivity) }
    else s
  { s with lastActivity := now }

/-- Embeds `markActivity` (lines 246-257): no-op when the tab has no
session. -/
def markActivity (tabId now : Nat) (st : St) : St :=
  match st.sessions.lookup tabId with
  | none => st
  | some s =>
    { st with sessions := setSession tabId (markActivitySession st.settings.idleThreshold now s) st.sessions }

/-- Embeds `markFocus` (lines 259-264): no-op when the tab has no
session; otherwise flush via `markActivity` (which mutates the same
record) and then set `focused`. -/
def markFocus (tabId : Nat) (focused : Bool) (now : Nat) (st : St) : St :=
  match st.sessions.lookup tabId with
  | none => st
  | some s =>
    let s' := markActivitySession st.settings.idleThreshold now s
    { st with sessions := setSession tabId { s' with focused := focused } st.sessions }

/-- The payload of the `ProblemSessionEnded` event (lines 231-239), built
from the session record after its final flush. -/
def endedPayload (settings : Settings) (s : Session) : Payload :=
  { userId := settings.userId, problemId := s.problemId,
    platform := platformFromUrl s.url,
    totalActiveMs := some s.activeMs, totalWallTime := s.totalWallTime,
    finalVerdict := s.finalVerdict, counters := some s.counters }

/-- The session record as `endSession` leaves it just before deletion
(lines 221-228): final flush of active time, `isActive := false`,
`endTime` and `totalWallTime` set. -/
def endSessionRecord (idleThreshold now : Nat) (s : Session) : Session :=
  let s :=
    if s.isActive && s.focused && decide (now - s.lastActivity < idleThreshold) then
      { s with activeMs := s.activeMs + (now - s.lastActivity) }
    else s
  { s with isActive := false, endTime := some now, totalWallTime := some (now - s.wallStart) }

/-- Embeds `endSession` (lines 217-244): no-op when the tab has no
session; otherwise finalize the record, dispatch `ProblemSessionEnded`
when not silent, a problemId is assigned and a userId is configured, and
delete the record unconditionally. -/
def endSession (tabId : Nat) (silent : Bool) (now : Nat) (netOk : Bool) (jitter : Nat)
    (st : St) : St :=
  match st.sessions.lookup tabId with
  | none => st
  | some s =>
    let s' := endSessionRecord st.settings.idleThreshold now s
    let st' :=
      if silent = false ∧ s'.problemId.isSome = true ∧ st.settings.userId ≠ "" then
        safePostEvent "ProblemSessionEnded" (endedPayload st.settings s') (some tabId)
          netOk now jitter st
      else st
    { st' with sessions := st'.sessions.filter (fun p => p.1 ≠ tabId) }

/-! ## Heartbeats -/

/-- The flush performed by `processHeartbeats` on an active, focused
session (lines 606-609): accrue the gap when under the idle threshold and
stamp `lastActivity`.  (The `isActive`/`focused` guard already happened at
line 604.) -/
def heartbeatFlush (idleThreshold now : Nat) (s : Session) : Session :=
  let s :=
    if decide (now - s.lastActivity < idleThreshold) then
      { s with activeMs := s.activeMs + (now - s.lastActivity) }
    else s
  { s with lastActivity := now }

/-- The payload of a heartbeat `ProblemProgress` event (lines 613-619). -/
def heartbeatPayload (userId : String) (s : Session) : Payload :=
  { userId := userId, problemId := s.problemId, event := "heartbeat",
    activeMsSinceStart := some s.activeMs, counters := some s.counters }

/-- One iteration of the `processHeartbeats` loop (lines 603-624) on the
entry `(tabId, s)` read from the map: skip unless active and focused;
flush; dispatch a heartbeat when a problemId is assigned and a userId is
configured. -/
def heartbeatStep (now : Nat) (ok : Nat → Bool) (jit : Nat → Nat) (st : St)
    (entry : Nat × Session) : St :=
  if entry.2.isActive && entry.2.focused then
    let s' := heartbeatFlush st.settings.idleThreshold now entry.2
    let st' := { st with sessions := setSession entry.1 s' st.sessions }
    if s'.problemId.isSome && decide (st'.settings.userId ≠ "") then
      safePostEvent "ProblemProgress" (heartbeatPayload st'.settings.userId s')
        (some entry.1) (ok entry.1) now (jit entry.1) st'
    else st'
  else st

/-- Embeds `processHeartbeats` (lines 601-625): iterate the session map
(no iteration adds or removes entries, and each record is mutated only in
its own iteration, so folding the step over the pre-tick entry list is
the loop's net effect). -/
def processHeartbeats (now : Nat) (ok : Nat → Bool) (jit : Nat → Nat) (st : St) : St :=
  st.sessions.foldl (heartbeatStep now ok jit) st

/-! ## Popup snapshot -/

/-- The `data` object answered by `getSessionInfo` (lines 643-658). -/
structure SessionView where
  tabId : Nat
  platform : String
  url : Option String
  problemId : Option String
  problemTitle : Option String
  expectedTime : Option Nat
  activeMs : Nat
  counters : Counters
  finalVerdict : Option String
  isActive : Bool
  focused : Bool
deriving Repr, DecidableEq

/-- The response passed to `sendResponse` by `getSessionInfo`. -/
inductive SessionResponse where
  | failure (message : String)
  | success (data : SessionView)
deriving Repr, DecidableEq

/-- Embeds `getSessionInfo` (lines 629-662).  The source only reads the
session record (the snapshot is computed without assignment), so the
embedding returns the response together with the state, which passes
through unchanged. -/
def getSessionInfo (tabId now : Nat) (st : St) : SessionResponse × St :=
  match st.sessions.lookup tabId with
  | none => (SessionResponse.failure "No active session", st)
  | some s =>
    let activeSnapshot :=
      if s.isActive && s.focused && decide (now - s.lastActivity < st.settings.idleThreshold) then
        s.activeMs + (now - s.lastActivity)
      else s.activeMs
    (SessionResponse.success
      { tabId := tabId, platform := platformFromUrl s.url, url := s.url,
        problemId := s.problemId, problemTitle := s.problemTitle,
        expectedTime := s.expectedTime, activeMs := activeSnapshot,
        counters := s.counters, finalVerdict := s.finalVerdict,
        isActive := s.isActive, focused := s.focused }, st)

end BackgroundMgr

namespace BackgroundMgr

/-! ## Claim C3: retry backoff shape, monotonicity and bound -/

/-- C3. The retry backoff delay equals `min(1000 * 2^retryCount, 30000) +
jitter`; for a fixed jitter it is monotone non-decreasing in
`retryCount`; and with jitter drawn from `[0, 1000)` it never exceeds
`30000 + 1000` ms. -/
theorem getRetryDelay_spec (rc rc' jitter : Nat) (hj : jitter < 1000) :
    getRetryDelay rc jitter = min (1000 * 2 ^ rc) 30000 + jitter ∧
    (rc ≤ rc' → getRetryDelay rc jitter ≤ getRetryDelay rc' jitter) ∧
    getRetryDelay rc jitter ≤ 30000 + 1000 := by
  refine ⟨rfl, ?_, ?_⟩
  · intro h
    have hpow : 1000 * 2 ^ rc ≤ 1000 * 2 ^ rc' :=
      Nat.mul_le_mul_left 1000 (Nat.pow_le_pow_right (by norm_num) h)
    exact Nat.add_le_add_right (min_le_min hpow le_rfl) jitter
  · have : min (1000 * 2 ^ rc) 30000 ≤ 30000 := min_le_right _ _
    unfold getRetryDelay
    omega

/-- Witness for C3 at `retryCount` 2 ≤ 7 and jitter 500. -/
theorem getRetryDelay_spec_witness :
    getRetryDelay 2 500 = min (1000 * 2 ^ 2) 30000 + 500 ∧
    (2 ≤ 7 → getRetryDelay 2 500 ≤ getRetryDelay 7 500) ∧
    getRetryDelay 2 500 ≤ 30000 + 1000 :=
  getRetryDelay_spec 2 7 500 (by decide)

/-! ## Helper lemmas on the session-level flush -/

theorem markActivitySession_lastActivity (thr now : Nat) (s : Session) :
    (markActivitySession thr now s).lastActivity = now := by
  simp only [markActivitySession]

theorem markActivitySession_isActive (thr now : Nat) (s : Session) :
    (markActivitySession thr now s).isActive = s.isActive := by
  simp only [markActivitySession]
  split <;> rfl

theorem markActivitySession_focused (thr now : Nat) (s : Session) :
    (markActivitySession thr now s).focused = s.focused := by
  simp only [markActivitySession]
  split <;> rfl

theorem markActivitySession_activeMs_accrual (thr now : Nat) (s : Session)
    (hact : s.isActive = true) (hfoc : s.focused = true)
    (hgap : now - s.lastActivity < thr) :
    (markActivitySession thr now s).activeMs = s.activeMs + (now - s.lastActivity) := by
  simp [markActivitySession, hact, hfoc, hgap]

theorem markActivitySession_activeMs_frame (thr now : Nat) (s : Session)
    (h : s.isActive = false ∨ s.focused = false ∨ thr ≤ now - s.lastActivity) :
    (markActivitySession thr now s).activeMs = s.activeMs := by
  rcases h with h | h | h
  · simp [markActivitySession, h]
  · simp [markActivitySession, h]
  · have hn : ¬(now - s.lastActivity < thr) := Nat.not_lt.mpr h
    simp [markActivitySession, hn]

/-! ## Sequences of activity signals -/

/-- A sequence of signal times starting after `last`, each gap strictly
below the idle threshold. -/
def gapsOk (idleThreshold : Nat) : Nat → List Nat → Bool
  | _, [] => true
  | last, t :: ts =>
    decide (last ≤ t) && decide (t - last < idleThreshold) && gapsOk idleThreshold t ts

/-- Sum of the gaps of a signal-time sequence starting from `last`. -/
def gapSum : Nat → List Nat → Nat
  | _, [] => 0
  | last, t :: ts => (t - last) + gapSum t ts

/-- Run `markActivity`'s session-level flush at each time of the list in
order. -/
def markAll (idleThreshold : Nat) (ts : List Nat) (s : Session) : Session :=
  ts.foldl (fun s t => markActivitySession idleThreshold t s) s

theorem markAll_activeMs (thr : Nat) (ts : List Nat) (s : Session)
    (hact : s.isActive = true) (hfoc : s.focused = true)
    (hg : gapsOk thr s.lastActivity ts = true) :
    (markAll thr ts s).activeMs = s.activeMs + gapSum s.lastActivity ts := by
  induction ts generalizing s with
  | nil => simp [markAll, gapSum]
  | cons t ts ih =>
    simp only [gapsOk, Bool.and_eq_true, decide_eq_true_eq] at hg
    obtain ⟨⟨hle, hlt⟩, hg'⟩ := hg
    have hstep : markAll thr (t :: ts) s
        = markAll thr ts (markActivitySession thr t s) := rfl
    rw [hstep]
    rw [ih (markActivitySession thr t s)
      (by rw [markActivitySession_isActive]; exact hact)
      (by rw [markActivitySession_focused]; exact hfoc)
      (by rw [markActivitySession_lastActivity]; exact hg')]
    rw [markActivitySession_activeMs_accrual thr t s hact hfoc hlt,
      markActivitySession_lastActivity]
    simp only [gapSum]
    omega

/-! ## Claim C2: activity flush accounting -/

/-- C2. `recordActivity` on an existing session: the stored record is
replaced by the session-level flush; that flush stamps `lastActivity`
with `now` in every case; it adds exactly the elapsed gap to `activeMs`
when the session is active, focused and the gap is strictly below the
idle threshold, and leaves `activeMs` unchanged otherwise; and over any
sequence of calls on an active, focused session whose gaps are all below
the idle threshold, `activeMs` grows by exactly the sum of the gaps. -/
theorem markActivity_spec (st : St) (tabId now : Nat) (s : Session)
    (hs : st.sessions.lookup tabId = some s) :
    (markActivity tabId now st).sessions
      = setSession tabId (markActivitySession st.settings.idleThreshold now s) st.sessions ∧
    (markActivitySession st.settings.idleThreshold now s).lastActivity = now ∧
    (s.isActive = true → s.focused = true →
      now - s.lastActivity < st.settings.idleThreshold →
      (markActivitySession st.settings.idleThreshold now s).activeMs
        = s.activeMs + (now - s.lastActivity)) ∧
    (s.isActive = false ∨ s.focused = false ∨
        st.settings.idleThreshold ≤ now - s.lastActivity →
      (markActivitySession st.settings.idleThreshold now s).activeMs = s.activeMs) ∧
    (∀ ts : List Nat, s.isActive = true → s.focused = true →
      gapsOk st.settings.idleThreshold s.lastActivity ts = true →
      (markAll st.settings.idleThreshold ts s).activeMs
        = s.activeMs + gapSum s.lastActivity ts) := by
  refine ⟨?_, markActivitySession_lastActivity _ _ _, ?_, ?_, ?_⟩
  · simp [markActivity, hs]
  · intro hact hfoc hgap
    exact markActivitySession_activeMs_accrual _ _ _ hact hfoc hgap
  · intro h
    exact markActivitySession_activeMs_frame _ _ _ h
  · intro ts hact hfoc hg
    exact markAll_activeMs _ ts s hact hfoc hg

/-! ## Sample states for witnesses -/

/-- A concrete active, focused session used by the witnesses. -/
def sampleSession : Session :=
  { url := some "https://leetcode.com/problems/two-sum/", startTime := 0, wallStart := 0,
    lastActivity := 0, activeMs := 0, isActive := true, focused := true,
    counters := { keystrokes := 3, runs := 1, submissions := 0 },
    finalVerdict := none, problemId := some "p1", problemTitle := some "Two Sum",
    expectedTime := none, endTime := none, totalWallTime := none }

/-- Concrete settings with a configured userId. -/
def sampleSettings : Settings :=
  { backendUrl := "http://localhost:8082", apiKey := "", userId := "u1",
    idleThreshold := 60000, heartbeatInterval := 30000 }

/-- A concrete state holding one session under tab 1. -/
def sampleSt : St :=
  { sessions := [(1, sampleSession)], settings := sampleSettings, retryQueue := [],
    storedQueue := [], events := [], delivered := [], nextId := 0 }

/-- Witness for C2: tab 1 of `sampleSt` at `now = 500`. -/
theorem markActivity_spec_witness :
    sampleSt.sessions.lookup 1 = some sampleSession ∧
    ((markActivity 1 500 sampleSt).sessions
      = setSession 1 (markActivitySession sampleSt.settings.idleThreshold 500 sampleSession)
          sampleSt.sessions ∧
    (markActivitySession sampleSt.settings.idleThreshold 500 sampleSession).lastActivity = 500 ∧
    (sampleSession.isActive = true → sampleSession.focused = true →
      500 - sampleSession.lastActivity < sampleSt.settings.idleThreshold →
      (markActivitySession sampleSt.settings.idleThreshold 500 sampleSession).activeMs
        = sampleSession.activeMs + (500 - sampleSession.lastActivity)) ∧
    (sampleSession.isActive = false ∨ sampleSession.focused = false ∨
        sampleSt.settings.idleThreshold ≤ 500 - sampleSession.lastActivity →
      (markActivitySession sampleSt.settings.idleThreshold 500 sampleSession).activeMs
        = sampleSession.activeMs) ∧
    (∀ ts : List Nat, sampleSession.isActive = true → sampleSession.focused = true →
      gapsOk sampleSt.settings.idleThreshold sampleSession.lastActivity ts = true →
      (markAll sampleSt.settings.idleThreshold ts sampleSession).activeMs
        = sampleSession.activeMs + gapSum sampleSession.lastActivity ts)) :=
  ⟨rfl, markActivity_spec sampleSt 1 500 sampleSession rfl⟩

/-! ## Claim C8: read-only snapshot -/

/-- C8. `getSessionInfo` passes the state through unchanged (no field of
any stored record is mutated), and the active-time value it reports is
the stored `activeMs` plus the not-yet-flushed gap exactly when the
session is active, focused and the gap is under the idle threshold, and
the stored `activeMs` otherwise. -/
theorem getSessionInfo_spec (st : St) (tabId now : Nat) (s : Session)
    (hs : st.sessions.lookup tabId = some s) :
    (getSessionInfo tabId now st).2 = st ∧
    (s.isActive = true → s.focused = true →
      now - s.lastActivity < st.settings.idleThreshold →
      ∃ v, (getSessionInfo tabId now st).1 = SessionResponse.success v ∧
        v.activeMs = s.activeMs + (now - s.lastActivity)) ∧
    (s.isActive = false ∨ s.focused = false ∨
        st.settings.idleThreshold ≤ now - s.lastActivity →
      ∃ v, (getSessionInfo tabId now st).1 = SessionResponse.success v ∧
        v.activeMs = s.activeMs) := by
  refine ⟨?_, ?_, ?_⟩
  · simp [getSessionInfo, hs]
  · intro hact hfoc hgap
    simp only [getSessionInfo, hs]
    refine ⟨_, rfl, ?_⟩
    simp [hact, hfoc, hgap]
  · intro h
    simp only [getSessionInfo, hs]
    refine ⟨_, rfl, ?_⟩
    rcases h with h | h | h
    · simp [h]
    · simp [h]
    · have hn : ¬(now - s.lastActivity < st.settings.idleThreshold) := Nat.not_lt.mpr h
      simp [hn]

/-- Witness for C8: tab 1 of `sampleSt` at `now = 500`. -/
theorem getSessionInfo_spec_witness :
    sampleSt.sessions.lookup 1 = some sampleSession ∧
    ((getSessionInfo 1 500 sampleSt).2 = sampleSt ∧
    (sampleSession.isActive = true → sampleSession.focused = true →
      500 - sampleSession.lastActivity < sampleSt.settings.idleThreshold →
      ∃ v, (getSessionInfo 1 500 sampleSt).1 = SessionResponse.success v ∧
        v.activeMs = sampleSession.activeMs + (500 - sampleSession.lastActivity)) ∧
    (sampleSession.isActive = false ∨ sampleSession.focused = false ∨
        sampleSt.settings.idleThreshold ≤ 500 - sampleSession.lastActivity →
      ∃ v, (getSessionInfo 1 500 sampleSt).1 = SessionResponse.success v ∧
        v.activeMs = sampleSession.activeMs)) :=
  ⟨rfl, getSessionInfo_spec sampleSt 1 500 sampleSession rfl⟩

/-! ## Claim C10: handlers are no-ops for unknown contexts -/

/-- C10. When no session record exists for a context id, `markActivity`,
`markFocus` and `endSession` return the state completely unchanged:
registry, retry queue, event log, and every session field. -/
theorem missingSession_noop (st : St) (tabId now : Nat) (focused silent netOk : Bool)
    (jitter : Nat) (hs : st.sessions.lookup tabId = none) :
    markActivity tabId now st = st ∧
    markFocus tabId focused now st = st ∧
    endSession tabId silent now netOk jitter st = st := by
  refine ⟨?_, ?_, ?_⟩
  · simp [markActivity, hs]
  · simp [markFocus, hs]
  · simp [endSession, hs]

/-- A concrete state with an empty session registry. -/
def emptySt : St :=
  { sessions := [], settings := sampleSettings, retryQueue := [],
    storedQueue := [], events := [], delivered := [], nextId := 0 }

/-- Witness for C10: tab 7 has no session in `emptySt`. -/
theorem missingSession_noop_witness :
    emptySt.sessions.lookup 7 = none ∧
    (markActivity 7 100 emptySt = emptySt ∧
    markFocus 7 false 100 emptySt = emptySt ∧
    endSession 7 false 100 true 0 emptySt = emptySt) :=
  ⟨rfl, missingSession_noop emptySt 7 100 false false true 0 rfl⟩

/-! ## Helper lemmas on the retry pipeline -/

theorem postEventResult_ok_iff (settings : Settings) (netOk : Bool) :
    postEventResult settings netOk = Except.ok () ↔ postEventOk settings netOk = true := by
  unfold postEventResult postEventOk
  by_cases h : settings.userId = ""
  · simp [h]
  · by_cases hn : netOk <;> simp [h, hn]

theorem postEventResult_error_of (settings : Settings) (netOk : Bool)
    (h : postEventOk settings netOk = false) :
    ∃ e, postEventResult settings netOk = Except.error e := by
  unfold postEventResult
  unfold postEventOk at h
  by_cases hu : settings.userId = ""
  · exact ⟨PostError.configError, by simp [hu]⟩
  · refine ⟨PostError.deliveryError, ?_⟩
    simp only [hu, if_false] at h ⊢
    simp [h]

theorem sweepFate_eq_none_iff (settings : Settings) (ok : Nat → Bool)
    (failAt jit : Nat → Nat) (it : RetryItem) :
    sweepFate settings ok failAt jit it = none ↔
      (postEventOk settings (ok it.id) = true ∨ maxRetries ≤ it.retryCount + 1) := by
  unfold sweepFate
  by_cases h1 : postEventOk settings (ok it.id) <;>
    by_cases h2 : maxRetries ≤ it.retryCount + 1 <;> simp [h1, h2]

theorem sweepFate_eq_some_iff (settings : Settings) (ok : Nat → Bool)
    (failAt jit : Nat → Nat) (it it' : RetryItem) :
    sweepFate settings ok failAt jit it = some it' ↔
      (postEventOk settings (ok it.id) = false ∧ it.retryCount + 1 < maxRetries ∧
        it' = { it with
                retryCount := it.retryCount + 1,
                nextRetry := failAt it.id + getRetryDelay (it.retryCount + 1) (jit it.id) }) := by
  unfold sweepFate
  by_cases h1 : postEventOk settings (ok it.id)
  · simp [h1]
  · by_cases h2 : maxRetries ≤ it.retryCount + 1
    · have h2' : ¬(it.retryCount + 1 < maxRetries) := Nat.not_lt.mpr h2
      simp [h1, h2, h2']
    · have h2' : it.retryCount + 1 < maxRetries := Nat.not_le.mp h2
      simp [h1, h2, h2', eq_comm]

theorem sweepFate_id (settings : Settings) (ok : Nat → Bool) (failAt jit : Nat → Nat)
    (it it' : RetryItem) (h : sweepFate settings ok failAt jit it = some it') :
    it'.id = it.id := by
  rw [sweepFate_eq_some_iff] at h
  rw [h.2.2]

theorem processRetryQueue_not_swept (online : Bool) (now : Nat) (ok : Nat → Bool)
    (failAt jit : Nat → Nat) (st : St)
    (h : online = false ∨ st.retryQueue.filter (retryReady now) = []) :
    processRetryQueue online now ok failAt jit st = st := by
  unfold processRetryQueue
  by_cases hon : online = false
  · simp [hon]
  · rcases h with h | h
    · exact absurd h hon
    · by_cases hq : st.retryQueue.isEmpty <;> simp [hon, hq, h]

theorem processRetryQueue_swept (now : Nat) (ok : Nat → Bool)
    (failAt jit : Nat → Nat) (st : St)
    (hr : st.retryQueue.filter (retryReady now) ≠ []) :
    processRetryQueue true now ok failAt jit st =
      storeRetryQueue
        { st with
          retryQueue := sweepQueue st.settings now ok failAt jit st.retryQueue,
          delivered := st.delivered ++ sweepDelivered st.settings now ok st.retryQueue } := by
  have hq : st.retryQueue ≠ [] := by
    intro h
    rw [h] at hr
    simp at hr
  unfold processRetryQueue
  simp [hq, hr]

/-- Membership in an id-preserving `filterMap`, looked up by id: under
distinct ids, an id survives exactly when its item's image is `some`. -/
theorem mem_filterMap_id_iff (f : RetryItem → Option RetryItem)
    (hf : ∀ x y, f x = some y → y.id = x.id) (l : List RetryItem)
    (hnd : (l.map RetryItem.id).Nodup) (it : RetryItem) (hit : it ∈ l) :
    (∃ it', it' ∈ l.filterMap f ∧ it'.id = it.id) ↔ (f it).isSome := by
  induction l with
  | nil => cases hit
  | cons a l ih =>
    simp only [List.map_cons, List.nodup_cons] at hnd
    obtain ⟨hna, hndl⟩ := hnd
    rcases List.mem_cons.mp hit with rfl | hmem
    · constructor
      · intro ⟨it', hit', hid⟩
        cases hfa : f it with
        | some b => simp
        | none =>
          exfalso
          rw [List.filterMap_cons, hfa] at hit'
          rcases List.mem_filterMap.mp hit' with ⟨x, hx, hfx⟩
          exact hna (hid ▸ hf x it' hfx ▸ List.mem_map.mpr ⟨x, hx, rfl⟩)
      · intro hsome
        cases hfa : f it with
        | none => rw [hfa] at hsome; cases hsome
        | some b =>
          refine ⟨b, ?_, hf it b hfa⟩
          rw [List.filterMap_cons, hfa]
          exact List.mem_cons_self b _
    · have hne : a.id ≠ it.id := by
        intro hcontra
        exact hna (hcontra ▸ List.mem_map.mpr ⟨it, hmem, rfl⟩)
      rw [← ih hndl hmem]
      constructor
      · intro ⟨it', hit', hid⟩
        rw [List.filterMap_cons] at hit'
        cases hfa : f a with
        | none =>
          rw [hfa] at hit'
          exact ⟨it', hit', hid⟩
        | some b =>
          rw [hfa] at hit'
          rcases List.mem_cons.mp hit' with rfl | h'
          · exact absurd (hf a it' hfa ▸ hid) hne
          · exact ⟨it', h', hid⟩
      · intro ⟨it', hit', hid⟩
        refine ⟨it', ?_, hid⟩
        rw [List.filterMap_cons]
        cases hfa : f a with
        | none => exact hit'
        | some b => exact List.mem_cons_of_mem b hit'

/-- Under distinct ids, the survivor with a given id is the image of the
item that carried that id. -/
theorem filterMap_id_eq (f : RetryItem → Option RetryItem)
    (hf : ∀ x y, f x = some y → y.id = x.id) (l : List RetryItem)
    (hnd : (l.map RetryItem.id).Nodup) (it : RetryItem) (hit : it ∈ l)
    (it' : RetryItem) (hit' : it' ∈ l.filterMap f) (hid : it'.id = it.id) :
    f it = some it' := by
  rcases List.mem_filterMap.mp hit' with ⟨x, hx, hfx⟩
  have hxid : x.id = it.id := by rw [← hf x it' hfx, hid]
  have hxit : x = it := List.inj_on_of_nodup_map hnd hx hit hxid
  rw [← hxit]
  exact hfx

/-- The per-item queue transformer of the sweep preserves the modelling
id. -/
theorem sweepStep_f_id (settings : Settings) (ok : Nat → Bool) (failAt jit : Nat → Nat)
    (now : Nat) : ∀ x y : RetryItem,
    (if retryReady now x then sweepFate settings ok failAt jit x else some x) = some y →
    y.id = x.id := by
  intro x y h
  by_cases hr : retryReady now x = true
  · rw [if_pos hr] at h
    exact sweepFate_id _ _ _ _ _ _ h
  · rw [if_neg hr] at h
    cases h
    rfl

theorem processRetryQueue_retryQueue_swept (now : Nat) (ok : Nat → Bool)
    (failAt jit : Nat → Nat) (st : St)
    (hready : st.retryQueue.filter (retryReady now) ≠ []) :
    (processRetryQueue true now ok failAt jit st).retryQueue
      = st.retryQueue.filterMap (fun x =>
          if retryReady now x then sweepFate st.settings ok failAt jit x else some x) := by
  rw [processRetryQueue_swept now ok failAt jit st hready]
  rfl

theorem processRetryQueue_delivered_swept (now : Nat) (ok : Nat → Bool)
    (failAt jit : Nat → Nat) (st : St)
    (hready : st.retryQueue.filter (retryReady now) ≠ []) :
    (processRetryQueue true now ok failAt jit st).delivered
      = st.delivered ++ sweepDelivered st.settings now ok st.retryQueue := by
  rw [processRetryQueue_swept now ok failAt jit st hready]
  rfl

theorem not_ready_of_filter_nil (now : Nat) (l : List RetryItem)
    (h : l.filter (retryReady now) = []) (it : RetryItem) (hit : it ∈ l) :
    retryReady now it = false := by
  by_contra hcon
  have hr : retryReady now it = true := by
    revert hcon
    cases retryReady now it <;> simp
  have hmem : it ∈ l.filter (retryReady now) := List.mem_filter.mpr ⟨hit, hr⟩
  rw [h] at hmem
  cases hmem

/-! ## Claim C1: at-least-once delivery -/

/-- C1. At-least-once delivery.  A dispatch attempt (`safePostEvent`)
either delivers the event to the collector or leaves it on the retry
queue with `retryCount = 0`; the persisted copy of the queue agrees with
the in-memory queue after the attempt; across any retry sweep, each
queued item is either delivered during the sweep, or still present in
the queue (same identity), or has reached the maximum of 5 retries; and
a sweep also keeps the persisted copy in sync.  So no event vanishes
from the pipeline before reaching max retries. -/
theorem atLeastOnce_delivery (st : St) (et : String) (data : Payload) (tabId : Option Nat)
    (netOk online : Bool) (now jitter now2 : Nat) (ok : Nat → Bool) (failAt jit : Nat → Nat)
    (hpers : st.storedQueue = st.retryQueue) :
    (postEventOk st.settings netOk = true →
      (safePostEvent et data tabId netOk now jitter st).delivered
        = st.delivered ++ [(et, data)]) ∧
    (postEventOk st.settings netOk = false →
      ∃ item, item ∈ (safePostEvent et data tabId netOk now jitter st).retryQueue ∧
        item.eventType = et ∧ item.data = data ∧ item.retryCount = 0) ∧
    (safePostEvent et data tabId netOk now jitter st).storedQueue
      = (safePostEvent et data tabId netOk now jitter st).retryQueue ∧
    (∀ it, it ∈ st.retryQueue →
      (it.eventType, it.data) ∈ (processRetryQueue online now2 ok failAt jit st).delivered ∨
      (∃ it', it' ∈ (processRetryQueue online now2 ok failAt jit st).retryQueue ∧
        it'.id = it.id) ∨
      maxRetries ≤ it.retryCount + 1) ∧
    (processRetryQueue online now2 ok failAt jit st).storedQueue
      = (processRetryQueue online now2 ok failAt jit st).retryQueue := by
  refine ⟨?_, ?_, ?_, ?_, ?_⟩
  · intro h
    simp only [safePostEvent, (postEventResult_ok_iff st.settings netOk).mpr h]
    simp [storeEvent, recordDelivery]
  · intro h
    obtain ⟨e, he⟩ := postEventResult_error_of st.settings netOk h
    simp only [safePostEvent, he]
    refine ⟨{ id := st.nextId, eventType := et, data := data, tabId := tabId,
              retryCount := 0, nextRetry := now + getRetryDelay 0 jitter }, ?_, rfl, rfl, rfl⟩
    simp [queueForRetry, storeRetryQueue]
  · cases hres : postEventResult st.settings netOk with
    | ok u =>
      cases u
      simp only [safePostEvent, hres]
      simpa [storeEvent, recordDelivery] using hpers
    | error e =>
      simp [safePostEvent, hres, queueForRetry, storeRetryQueue]
  · intro it hit
    by_cases hon : online = true
    · subst hon
      by_cases hready : st.retryQueue.filter (retryReady now2) = []
      · rw [processRetryQueue_not_swept _ _ _ _ _ _ (Or.inr hready)]
        exact Or.inr (Or.inl ⟨it, hit, rfl⟩)
      · by_cases hr : retryReady now2 it = true
        · by_cases hok : postEventOk st.settings (ok it.id) = true
          · refine Or.inl ?_
            rw [processRetryQueue_delivered_swept now2 ok failAt jit st hready]
            refine List.mem_append_right _ ?_
            unfold sweepDelivered
            exact List.mem_map.mpr
              ⟨it, List.mem_filter.mpr ⟨List.mem_filter.mpr ⟨hit, hr⟩, hok⟩, rfl⟩
          · by_cases hmax : maxRetries ≤ it.retryCount + 1
            · exact Or.inr (Or.inr hmax)
            · refine Or.inr (Or.inl ⟨{ it with
                  retryCount := it.retryCount + 1,
                  nextRetry := failAt it.id + getRetryDelay (it.retryCount + 1) (jit it.id) },
                ?_, rfl⟩)
              rw [processRetryQueue_retryQueue_swept now2 ok failAt jit st hready]
              refine List.mem_filterMap.mpr ⟨it, hit, ?_⟩
              rw [if_pos hr, sweepFate_eq_some_iff]
              exact ⟨Bool.eq_false_iff.mpr hok, Nat.not_le.mp hmax, rfl⟩
        · refine Or.inr (Or.inl ⟨it, ?_, rfl⟩)
          rw [processRetryQueue_retryQueue_swept now2 ok failAt jit st hready]
          exact List.mem_filterMap.mpr ⟨it, hit, by rw [if_neg hr]⟩
    · have hof : online = false := by
        revert hon
        cases online <;> simp
      rw [processRetryQueue_not_swept _ _ _ _ _ _ (Or.inl hof)]
      exact Or.inr (Or.inl ⟨it, hit, rfl⟩)
  · by_cases hon : online = true
    · subst hon
      by_cases hready : st.retryQueue.filter (retryReady now2) = []
      · rw [processRetryQueue_not_swept _ _ _ _ _ _ (Or.inr hready)]
        exact hpers
      · rw [processRetryQueue_swept now2 ok failAt jit st hready]
        rfl
    · have hof : online = false := by
        revert hon
        cases online <;> simp
      rw [processRetryQueue_not_swept _ _ _ _ _ _ (Or.inl hof)]
      exact hpers

/-- The all-default payload, used by concrete witnesses. -/
def emptyPayload : Payload := {}

/-- A concrete retry item, one failure behind it. -/
def queuedItem : RetryItem :=
  { id := 0, eventType := "ProblemProgress", data := {}, tabId := some 1,
    retryCount := 1, nextRetry := 2000 }

/-- A concrete state whose retry queue holds `queuedItem`, in sync with
its persisted copy. -/
def queuedSt : St :=
  { sessions := [], settings := sampleSettings, retryQueue := [queuedItem],
    storedQueue := [queuedItem], events := [], delivered := [], nextId := 1 }

/-- Witness for C1 at `queuedSt`, a fresh event and an all-failing
network. -/
theorem atLeastOnce_delivery_witness :
    queuedSt.storedQueue = queuedSt.retryQueue ∧
    ((postEventOk queuedSt.settings false = true →
      (safePostEvent "ProblemSubmitted" emptyPayload none false 2500 3 queuedSt).delivered
        = queuedSt.delivered ++ [("ProblemSubmitted", emptyPayload)]) ∧
    (postEventOk queuedSt.settings false = false →
      ∃ item, item ∈ (safePostEvent "ProblemSubmitted" emptyPayload none false 2500 3 queuedSt).retryQueue ∧
        item.eventType = "ProblemSubmitted" ∧ item.data = emptyPayload ∧ item.retryCount = 0) ∧
    (safePostEvent "ProblemSubmitted" emptyPayload none false 2500 3 queuedSt).storedQueue
      = (safePostEvent "ProblemSubmitted" emptyPayload none false 2500 3 queuedSt).retryQueue ∧
    (∀ it, it ∈ queuedSt.retryQueue →
      (it.eventType, it.data)
        ∈ (processRetryQueue true 2500 (fun _ => false) (fun _ => 2500) (fun _ => 4) queuedSt).delivered ∨
      (∃ it', it' ∈ (processRetryQueue true 2500 (fun _ => false) (fun _ => 2500) (fun _ => 4) queuedSt).retryQueue ∧
        it'.id = it.id) ∨
      maxRetries ≤ it.retryCount + 1) ∧
    (processRetryQueue true 2500 (fun _ => false) (fun _ => 2500) (fun _ => 4) queuedSt).storedQueue
      = (processRetryQueue true 2500 (fun _ => false) (fun _ => 2500) (fun _ => 4) queuedSt).retryQueue) :=
  ⟨rfl, atLeastOnce_delivery queuedSt "ProblemSubmitted" emptyPayload none false true 2500 3 2500
    (fun _ => false) (fun _ => 2500) (fun _ => 4) rfl⟩

/-! ## Claim C4: retry-queue state machine -/

/-- C4. Retry-queue state machine across one sweep, under distinct item
identities: an item disappears from the queue exactly when it was ready
and its redrive succeeded or its `retryCount` reached the maximum after
one more failure; an item that stays is either untouched (it was not
ready) or is the failed redrive of itself, with `retryCount` incremented
by exactly 1, `nextRetry` recomputed from the new count via the backoff
function, and the new count still below the maximum; and if every queued
item starts below the maximum, every item remaining after the sweep is
strictly below the maximum. -/
theorem retryQueue_stateMachine (st : St) (now : Nat) (ok : Nat → Bool)
    (failAt jit : Nat → Nat) (hnd : (st.retryQueue.map RetryItem.id).Nodup) :
    (∀ it, it ∈ st.retryQueue →
      ((¬ ∃ it', it' ∈ (processRetryQueue true now ok failAt jit st).retryQueue ∧
          it'.id = it.id) ↔
        (retryReady now it = true ∧
          (postEventOk st.settings (ok it.id) = true ∨ maxRetries ≤ it.retryCount + 1)))) ∧
    (∀ it, it ∈ st.retryQueue → ∀ it',
      it' ∈ (processRetryQueue true now ok failAt jit st).retryQueue → it'.id = it.id →
      (it' = it ∧ retryReady now it = false) ∨
      (retryReady now it = true ∧ postEventOk st.settings (ok it.id) = false ∧
        it' = { it with
                retryCount := it.retryCount + 1,
                nextRetry := failAt it.id + getRetryDelay (it.retryCount + 1) (jit it.id) } ∧
        it'.retryCount < maxRetries)) ∧
    ((∀ it, it ∈ st.retryQueue → it.retryCount < maxRetries) →
      ∀ it', it' ∈ (processRetryQueue true now ok failAt jit st).retryQueue →
        it'.retryCount < maxRetries) := by
  refine ⟨?_, ?_, ?_⟩
  · intro it hit
    by_cases hready : st.retryQueue.filter (retryReady now) = []
    · rw [processRetryQueue_not_swept _ _ _ _ _ _ (Or.inr hready)]
      have hnr := not_ready_of_filter_nil now st.retryQueue hready it hit
      constructor
      · intro hnone
        exact absurd ⟨it, hit, rfl⟩ hnone
      · intro ⟨hr, _⟩
        rw [hnr] at hr
        cases hr
    · rw [processRetryQueue_retryQueue_swept now ok failAt jit st hready]
      have hiff := mem_filterMap_id_iff _ (sweepStep_f_id st.settings ok failAt jit now)
        st.retryQueue hnd it hit
      constructor
      · intro hne
        have hnone : (if retryReady now it then sweepFate st.settings ok failAt jit it
            else some it) = none := by
          cases hfe : (if retryReady now it then sweepFate st.settings ok failAt jit it
              else some it) with
          | none => rfl
          | some b =>
            exfalso
            exact hne (hiff.mpr (by rw [hfe]; rfl))
        by_cases hr : retryReady now it = true
        · rw [if_pos hr] at hnone
          exact ⟨hr, (sweepFate_eq_none_iff _ _ _ _ _).mp hnone⟩
        · rw [if_neg hr] at hnone
          cases hnone
      · intro ⟨hr, hcase⟩ hex
        have hsome := hiff.mp hex
        rw [if_pos hr, (sweepFate_eq_none_iff _ _ _ _ _).mpr hcase] at hsome
        cases hsome
  · intro it hit it' hit' hid
    by_cases hready : st.retryQueue.filter (retryReady now) = []
    · rw [processRetryQueue_not_swept _ _ _ _ _ _ (Or.inr hready)] at hit'
      have hnr := not_ready_of_filter_nil now st.retryQueue hready it hit
      exact Or.inl ⟨List.inj_on_of_nodup_map hnd hit' hit hid, hnr⟩
    · rw [processRetryQueue_retryQueue_swept now ok failAt jit st hready] at hit'
      have hf := filterMap_id_eq _ (sweepStep_f_id st.settings ok failAt jit now)
        st.retryQueue hnd it hit it' hit' hid
      by_cases hr : retryReady now it = true
      · rw [if_pos hr] at hf
        obtain ⟨hok, hlt, hrec⟩ := (sweepFate_eq_some_iff _ _ _ _ _ _).mp hf
        refine Or.inr ⟨hr, hok, hrec, ?_⟩
        rw [hrec]
        exact hlt
      · rw [if_neg hr] at hf
        cases hf
        exact Or.inl ⟨rfl, Bool.eq_false_iff.mpr hr⟩
  · intro hall it' hit'
    by_cases hready : st.retryQueue.filter (retryReady now) = []
    · rw [processRetryQueue_not_swept _ _ _ _ _ _ (Or.inr hready)] at hit'
      exact hall it' hit'
    · rw [processRetryQueue_retryQueue_swept now ok failAt jit st hready] at hit'
      rcases List.mem_filterMap.mp hit' with ⟨x, hx, hfx⟩
      by_cases hr : retryReady now x = true
      · rw [if_pos hr] at hfx
        obtain ⟨_, hlt, hrec⟩ := (sweepFate_eq_some_iff _ _ _ _ _ _).mp hfx
        rw [hrec]
        exact hlt
      · rw [if_neg hr] at hfx
        cases hfx
        exact hall _ hx

/-! ## Dispatch equations and frame lemmas -/

theorem safePostEvent_ok_eq (et : String) (d : Payload) (tid : Option Nat) (netOk : Bool)
    (now jitter : Nat) (st : St) (h : postEventOk st.settings netOk = true) :
    safePostEvent et d tid netOk now jitter st
      = storeEvent et d now (recordDelivery et d st) := by
  simp only [safePostEvent, (postEventResult_ok_iff st.settings netOk).mpr h]

theorem safePostEvent_fail_eq (et : String) (d : Payload) (tid : Option Nat) (netOk : Bool)
    (now jitter : Nat) (st : St) (h : postEventOk st.settings netOk = false) :
    safePostEvent et d tid netOk now jitter st = queueForRetry et d tid now jitter st := by
  obtain ⟨e, he⟩ := postEventResult_error_of st.settings netOk h
  simp only [safePostEvent, he]

theorem safePostEvent_sessions (et : String) (d : Payload) (tid : Option Nat) (netOk : Bool)
    (now jitter : Nat) (st : St) :
    (safePostEvent et d tid netOk now jitter st).sessions = st.sessions := by
  unfold safePostEvent
  cases postEventResult st.settings netOk <;>
    simp [storeEvent, recordDelivery, queueForRetry, storeRetryQueue]

theorem safePostEvent_settings (et : String) (d : Payload) (tid : Option Nat) (netOk : Bool)
    (now jitter : Nat) (st : St) :
    (safePostEvent et d tid netOk now jitter st).settings = st.settings := by
  unfold safePostEvent
  cases postEventResult st.settings netOk <;>
    simp [storeEvent, recordDelivery, queueForRetry, storeRetryQueue]

theorem endSessionRecord_problemId (thr now : Nat) (s : Session) :
    (endSessionRecord thr now s).problemId = s.problemId := by
  simp only [endSessionRecord]
  split <;> rfl

/-- Witness for C4 at `queuedSt` with an all-failing network. -/
theorem retryQueue_stateMachine_witness :
    (queuedSt.retryQueue.map RetryItem.id).Nodup ∧
    ((∀ it, it ∈ queuedSt.retryQueue →
      ((¬ ∃ it', it' ∈ (processRetryQueue true 2500 (fun _ => false) (fun _ => 2500)
            (fun _ => 4) queuedSt).retryQueue ∧ it'.id = it.id) ↔
        (retryReady 2500 it = true ∧
          (postEventOk queuedSt.settings false = true ∨ maxRetries ≤ it.retryCount + 1)))) ∧
    (∀ it, it ∈ queuedSt.retryQueue → ∀ it',
      it' ∈ (processRetryQueue true 2500 (fun _ => false) (fun _ => 2500)
        (fun _ => 4) queuedSt).retryQueue → it'.id = it.id →
      (it' = it ∧ retryReady 2500 it = false) ∨
      (retryReady 2500 it = true ∧ postEventOk queuedSt.settings false = false ∧
        it' = { it with
                retryCount := it.retryCount + 1,
                nextRetry := 2500 + getRetryDelay (it.retryCount + 1) 4 } ∧
        it'.retryCount < maxRetries)) ∧
    ((∀ it, it ∈ queuedSt.retryQueue → it.retryCount < maxRetries) →
      ∀ it', it' ∈ (processRetryQueue true 2500 (fun _ => false) (fun _ => 2500)
        (fun _ => 4) queuedSt).retryQueue → it'.retryCount < maxRetries)) :=
  ⟨by decide, retryQueue_stateMachine queuedSt 2500 (fun _ => false) (fun _ => 2500)
    (fun _ => 4) (by decide)⟩

/-! ## Claim C7: endSession deletes unconditionally, dispatches conditionally -/

/-- C7. `endSession` on an existing session deletes the record for every
`silent` flag and every network outcome — including when the emission of
`ProblemSessionEnded` fails; when `problemId` is unassigned or `userId`
is unconfigured it dispatches nothing at all (the state changes only by
the deletion); and when both are present a `ProblemSessionEnded` event
built from the finalized record is delivered (on network success) or
placed on the retry queue with `retryCount = 0` (on failure). -/
theorem endSession_spec (st : St) (tabId now : Nat) (s : Session)
    (hs : st.sessions.lookup tabId = some s) :
    (∀ silent netOk jitter, (endSession tabId silent now netOk jitter st).sessions
        = st.sessions.filter (fun p => p.1 ≠ tabId)) ∧
    (∀ netOk jitter, ¬(s.problemId.isSome = true ∧ st.settings.userId ≠ "") →
      endSession tabId false now netOk jitter st
        = { st with sessions := st.sessions.filter (fun p => p.1 ≠ tabId) }) ∧
    (∀ jitter, s.problemId.isSome = true → st.settings.userId ≠ "" →
      (endSession tabId false now true jitter st).delivered
        = st.delivered ++ [("ProblemSessionEnded",
            endedPayload st.settings (endSessionRecord st.settings.idleThreshold now s))]) ∧
    (∀ jitter, s.problemId.isSome = true → st.settings.userId ≠ "" →
      (endSession tabId false now false jitter st).delivered = st.delivered ∧
      (endSession tabId false now false jitter st).retryQueue.map itemCore
        = st.retryQueue.map itemCore ++ [("ProblemSessionEnded",
            endedPayload st.settings (endSessionRecord st.settings.idleThreshold now s),
            some tabId, 0, now + getRetryDelay 0 jitter)]) := by
  refine ⟨?_, ?_, ?_, ?_⟩
  · intro silent netOk jitter
    simp only [endSession, hs]
    split
    · simp [safePostEvent_sessions]
    · rfl
  · intro netOk jitter hncond
    have hcond : ¬(True ∧
        (endSessionRecord st.settings.idleThreshold now s).problemId.isSome = true ∧
        st.settings.userId ≠ "") := by
      rw [endSessionRecord_problemId]
      intro h
      exact hncond ⟨h.2.1, h.2.2⟩
    simp only [endSession, hs]
    rw [if_neg hcond]
  · intro jitter hpid huid
    have hok : postEventOk st.settings true = true := by
      simp [postEventOk, huid]
    have hcond : True ∧
        (endSessionRecord st.settings.idleThreshold now s).problemId.isSome = true ∧
        st.settings.userId ≠ "" := ⟨trivial, by rw [endSessionRecord_problemId]; exact hpid, huid⟩
    simp only [endSession, hs]
    rw [if_pos hcond, safePostEvent_ok_eq _ _ _ _ _ _ _ hok]
    simp [storeEvent, recordDelivery]
  · intro jitter hpid huid
    have hfail : postEventOk st.settings false = false := by
      simp [postEventOk]
    have hcond : True ∧
        (endSessionRecord st.settings.idleThreshold now s).problemId.isSome = true ∧
        st.settings.userId ≠ "" := ⟨trivial, by rw [endSessionRecord_problemId]; exact hpid, huid⟩
    simp only [endSession, hs]
    rw [if_pos hcond, safePostEvent_fail_eq _ _ _ _ _ _ _ hfail]
    simp [queueForRetry, storeRetryQueue, itemCore]

/-- Witness for C7: tab 1 of `sampleSt` ended at `now = 1000`. -/
theorem endSession_spec_witness :
    sampleSt.sessions.lookup 1 = some sampleSession ∧
    ((∀ silent netOk jitter, (endSession 1 silent 1000 netOk jitter sampleSt).sessions
        = sampleSt.sessions.filter (fun p => p.1 ≠ 1)) ∧
    (∀ netOk jitter, ¬(sampleSession.problemId.isSome = true ∧ sampleSt.settings.userId ≠ "") →
      endSession 1 false 1000 netOk jitter sampleSt
        = { sampleSt with sessions := sampleSt.sessions.filter (fun p => p.1 ≠ 1) }) ∧
    (∀ jitter, sampleSession.problemId.isSome = true → sampleSt.settings.userId ≠ "" →
      (endSession 1 false 1000 true jitter sampleSt).delivered
        = sampleSt.delivered ++ [("ProblemSessionEnded",
            endedPayload sampleSt.settings
              (endSessionRecord sampleSt.settings.idleThreshold 1000 sampleSession))]) ∧
    (∀ jitter, sampleSession.problemId.isSome = true → sampleSt.settings.userId ≠ "" →
      (endSession 1 false 1000 false jitter sampleSt).delivered = sampleSt.delivered ∧
      (endSession 1 false 1000 false jitter sampleSt).retryQueue.map itemCore
        = sampleSt.retryQueue.map itemCore ++ [("ProblemSessionEnded",
            endedPayload sampleSt.settings
              (endSessionRecord sampleSt.settings.idleThreshold 1000 sampleSession),
            some 1, 0, 1000 + getRetryDelay 0 jitter)])) :=
  ⟨rfl, endSession_spec sampleSt 1 1000 sampleSession rfl⟩

/-! ## Claim C9: heartbeat ticks -/

theorem heartbeatFlush_problemId (thr now : Nat) (s : Session) :
    (heartbeatFlush thr now s).problemId = s.problemId := by
  simp only [heartbeatFlush]
  split <;> rfl

/-- The (tab, payload) dispatches one heartbeat tick generates, in
session-map order: one `ProblemProgress` payload per active, focused
session with an assigned problemId, when a userId is configured, carrying
the flushed `activeMs` and the counters. -/
def heartbeatDispatches (idleThreshold now : Nat) (userId : String)
    (sessions : List (Nat × Session)) : List (Nat × Payload) :=
  sessions.filterMap (fun p =>
    if p.2.isActive = true ∧ p.2.focused = true ∧ p.2.problemId.isSome = true ∧ userId ≠ "" then
      some (p.1, heartbeatPayload userId (heartbeatFlush idleThreshold now p.2))
    else none)

theorem heartbeatStep_effects (now : Nat) (ok : Nat → Bool) (jit : Nat → Nat) (st : St)
    (p : Nat × Session) :
    (heartbeatStep now ok jit st p).settings = st.settings ∧
    (heartbeatStep now ok jit st p).delivered = st.delivered ++
      (if (p.2.isActive = true ∧ p.2.focused = true ∧ p.2.problemId.isSome = true ∧
          st.settings.userId ≠ "") ∧ ok p.1 = true then
        [("ProblemProgress",
          heartbeatPayload st.settings.userId (heartbeatFlush st.settings.idleThreshold now p.2))]
      else []) ∧
    (heartbeatStep now ok jit st p).retryQueue.map itemCore = st.retryQueue.map itemCore ++
      (if (p.2.isActive = true ∧ p.2.focused = true ∧ p.2.problemId.isSome = true ∧
          st.settings.userId ≠ "") ∧ ok p.1 = false then
        [("ProblemProgress",
          heartbeatPayload st.settings.userId (heartbeatFlush st.settings.idleThreshold now p.2),
          some p.1, 0, now + getRetryDelay 0 (jit p.1))]
      else []) := by
  cases hact : p.2.isActive with
  | false => simp [heartbeatStep, hact]
  | true =>
    cases hfoc : p.2.focused with
    | false => simp [heartbeatStep, hact, hfoc]
    | true =>
      cases hpi : p.2.problemId.isSome with
      | false => simp [heartbeatStep, hact, hfoc, heartbeatFlush_problemId, hpi]
      | true =>
        by_cases huid : st.settings.userId = ""
        · simp [heartbeatStep, hact, hfoc, heartbeatFlush_problemId, hpi, huid]
        · cases hok : ok p.1 with
          | true =>
            simp [heartbeatStep, hact, hfoc, heartbeatFlush_problemId, hpi, huid, hok,
              safePostEvent_ok_eq, postEventOk, storeEvent, recordDelivery]
          | false =>
            simp [heartbeatStep, hact, hfoc, heartbeatFlush_problemId, hpi, huid, hok,
              safePostEvent_fail_eq, postEventOk, queueForRetry, storeRetryQueue, itemCore]

theorem heartbeat_fold (now : Nat) (ok : Nat → Bool) (jit : Nat → Nat)
    (l : List (Nat × Session)) : ∀ st : St,
    (l.foldl (heartbeatStep now ok jit) st).settings = st.settings ∧
    (l.foldl (heartbeatStep now ok jit) st).delivered = st.delivered ++
      ((heartbeatDispatches st.settings.idleThreshold now st.settings.userId l).filter
        (fun q => ok q.1)).map (fun q => ("ProblemProgress", q.2)) ∧
    (l.foldl (heartbeatStep now ok jit) st).retryQueue.map itemCore
      = st.retryQueue.map itemCore ++
        ((heartbeatDispatches st.settings.idleThreshold now st.settings.userId l).filter
          (fun q => ok q.1 = false)).map
          (fun q => ("ProblemProgress", q.2, some q.1, 0, now + getRetryDelay 0 (jit q.1))) := by
  induction l with
  | nil => intro st; simp [heartbeatDispatches]
  | cons p l ih =>
    intro st
    obtain ⟨hset, hdel, hq⟩ := heartbeatStep_effects now ok jit st p
    obtain ⟨ihset, ihdel, ihq⟩ := ih (heartbeatStep now ok jit st p)
    rw [List.foldl_cons]
    refine ⟨by rw [ihset, hset], ?_, ?_⟩
    · rw [ihdel, hset, hdel, List.append_assoc]
      congr 1
      by_cases hC : (p.2.isActive = true ∧ p.2.focused = true ∧ p.2.problemId.isSome = true ∧
          st.settings.userId ≠ "")
      · cases hok : ok p.1 with
        | true => simp [heartbeatDispatches, hC, hok]
        | false => simp [heartbeatDispatches, hC, hok]
      · simp [heartbeatDispatches, hC]
    · rw [ihq, hset, hq, List.append_assoc]
      congr 1
      by_cases hC : (p.2.isActive = true ∧ p.2.focused = true ∧ p.2.problemId.isSome = true ∧
          st.settings.userId ≠ "")
      · cases hok : ok p.1 with
        | true => simp [heartbeatDispatches, hC, hok]
        | false => simp [heartbeatDispatches, hC, hok]
      · simp [heartbeatDispatches, hC]

/-- C9. One heartbeat tick dispatches a `ProblemProgress` event for
exactly the sessions that are active, focused and have an assigned
problemId (with a configured userId), in map order, each carrying the
session's flushed `activeMs` and counters: the delivered log grows by
exactly the dispatches whose network call succeeded and the retry queue
by exactly those whose call failed (as fresh items with `retryCount = 0`
and a first backoff).  In particular a session with `focused = false`
generates no Progress event on the tick. -/
theorem processHeartbeats_spec (st : St) (now : Nat) (ok : Nat → Bool) (jit : Nat → Nat) :
    (processHeartbeats now ok jit st).delivered = st.delivered ++
      ((heartbeatDispatches st.settings.idleThreshold now st.settings.userId st.sessions).filter
        (fun q => ok q.1)).map (fun q => ("ProblemProgress", q.2)) ∧
    (processHeartbeats now ok jit st).retryQueue.map itemCore
      = st.retryQueue.map itemCore ++
        ((heartbeatDispatches st.settings.idleThreshold now st.settings.userId st.sessions).filter
          (fun q => ok q.1 = false)).map
          (fun q => ("ProblemProgress", q.2, some q.1, 0, now + getRetryDelay 0 (jit q.1))) := by
  obtain ⟨_, hdel, hq⟩ := heartbeat_fold now ok jit st.sessions st
  exact ⟨hdel, hq⟩

/-! ## Claim C6: missing userId -/

/-- Settings with no userId configured. -/
def noUserSettings : Settings :=
  { backendUrl := "http://localhost:8082", apiKey := "", userId := "",
    idleThreshold := 60000, heartbeatInterval := 30000 }

/-- A concrete state with no userId configured and everything empty. -/
def noUserSt : St :=
  { sessions := [], settings := noUserSettings, retryQueue := [], storedQueue := [],
    events := [], delivered := [], nextId := 0 }

/-- Counterexample to C6 as stated: dispatching through `safePostEvent`
with userId unconfigured delivers nothing, but the event IS placed on the
retry queue (the queue goes from empty to holding that event), so a
ConfigurationError failure is retried like any other failure rather than
never retried. -/
theorem configError_is_queued_cex :
    (safePostEvent "ProblemProgress" emptyPayload none true 0 0 noUserSt).retryQueue.map
      RetryItem.eventType = ["ProblemProgress"] ∧
    (safePostEvent "ProblemProgress" emptyPayload none true 0 0 noUserSt).delivered = [] := by
  decide

/-- C6 amended: with userId unconfigured, `postEvent` fails fast with a
`ConfigurationError` whose outcome is independent of the connectivity
oracle (so no network call can be involved), and nothing is delivered —
but `safePostEvent` then places the event on the retry queue with
`retryCount = 0`, exactly like a delivery failure. -/
theorem configError_failFast_queued (st : St) (et : String) (d : Payload)
    (tid : Option Nat) (netOk : Bool) (now jitter : Nat)
    (huid : st.settings.userId = "") :
    (∀ b, postEventResult st.settings b = Except.error PostError.configError) ∧
    (safePostEvent et d tid netOk now jitter st).delivered = st.delivered ∧
    (safePostEvent et d tid netOk now jitter st).retryQueue
      = st.retryQueue ++
        [{ id := st.nextId, eventType := et, data := d, tabId := tid,
           retryCount := 0, nextRetry := now + getRetryDelay 0 jitter }] := by
  have hres : postEventResult st.settings netOk = Except.error PostError.configError := by
    simp [postEventResult, huid]
  refine ⟨fun b => by simp [postEventResult, huid], ?_, ?_⟩
  · simp only [safePostEvent, hres]
    simp [queueForRetry, storeRetryQueue]
  · simp only [safePostEvent, hres]
    simp [queueForRetry, storeRetryQueue]

/-- Witness for the amended C6 at `noUserSt`. -/
theorem configError_failFast_queued_witness :
    noUserSt.settings.userId = "" ∧
    ((∀ b, postEventResult noUserSt.settings b = Except.error PostError.configError) ∧
    (safePostEvent "ProblemProgress" emptyPayload none true 5 7 noUserSt).delivered
      = noUserSt.delivered ∧
    (safePostEvent "ProblemProgress" emptyPayload none true 5 7 noUserSt).retryQueue
      = noUserSt.retryQueue ++
        [{ id := noUserSt.nextId, eventType := "ProblemProgress", data := emptyPayload,
           tabId := none, retryCount := 0, nextRetry := 5 + getRetryDelay 0 7 }]) :=
  ⟨rfl, configError_failFast_queued noUserSt "ProblemProgress" emptyPayload none true 5 7 rfl⟩

/-! ## Claim C5: the local event log -/

/-- The C5 scenario run on `sampleSt` (userId configured, log and queue
empty): the dispatch at time 0 fails, the redrives at 1000, 3000 and 7000
fail (`retryCount` 0 → 1 → 2 → 3), and the redrive at 15000 succeeds. -/
def scenarioSt : St :=
  processRetryQueue true 15000 (fun _ => true) (fun _ => 15000) (fun _ => 0)
    (processRetryQueue true 7000 (fun _ => false) (fun _ => 7000) (fun _ => 0)
      (processRetryQueue true 3000 (fun _ => false) (fun _ => 3000) (fun _ => 0)
        (processRetryQueue true 1000 (fun _ => false) (fun _ => 1000) (fun _ => 0)
          (safePostEvent "ProblemSubmitted" emptyPayload (some 1) false 0 0 sampleSt))))

/-- Counterexample to C5 as stated: in the fails-3-times-then-succeeds
scenario the event is delivered by the fourth redrive and the retry queue
returns to length 0, but the Local Event Log gains no entry at all
(starting from the empty log it is still empty), not exactly one —
neither the enqueued retry nor the successful redrive is mirrored into
the log. -/
theorem eventLog_scenario_cex :
    scenarioSt.delivered = [("ProblemSubmitted", emptyPayload)] ∧
    scenarioSt.retryQueue = [] ∧
    sampleSt.events = [] ∧
    scenarioSt.events = [] := by
  decide

/-- C5 amended: the Local Event Log is capped at the most recent 100
entries with the oldest dropped first, but it only mirrors deliveries
that succeed immediately inside `safePostEvent`: an enqueued retry adds
nothing to the log, and a retry sweep — including a successful redrive —
never touches the log.  (Hence the scenario's log gains no entry while
the retry queue still returns to length 0.) -/
theorem eventLog_spec (st : St) (et : String) (d : Payload) (tid : Option Nat)
    (netOk online : Bool) (now jitter now2 : Nat) (ok : Nat → Bool) (failAt jit : Nat → Nat)
    (hlen : st.events.length ≤ 100) :
    (storeEvent et d now st).events.length = min (st.events.length + 1) 100 ∧
    List.IsSuffix (storeEvent et d now st).events (st.events ++ [(et, d, now)]) ∧
    (postEventOk st.settings netOk = true →
      (safePostEvent et d tid netOk now jitter st).events = (storeEvent et d now st).events) ∧
    (postEventOk st.settings netOk = false →
      (safePostEvent et d tid netOk now jitter st).events = st.events) ∧
    (processRetryQueue online now2 ok failAt jit st).events = st.events := by
  refine ⟨?_, ?_, ?_, ?_, ?_⟩
  · by_cases h : 100 < st.events.length + 1
    · simp [storeEvent, h]
      omega
    · simp [storeEvent, h]
      omega
  · by_cases h : 100 < st.events.length + 1
    · simp only [storeEvent, List.length_append, List.length_singleton, h, if_pos]
      exact List.drop_suffix _ _
    · simp only [storeEvent, List.length_append, List.length_singleton, h, if_neg,
        not_false_iff]
      exact List.suffix_refl _
  · intro h
    rw [safePostEvent_ok_eq _ _ _ _ _ _ _ h]
    simp [storeEvent, recordDelivery]
  · intro h
    rw [safePostEvent_fail_eq _ _ _ _ _ _ _ h]
    simp [queueForRetry, storeRetryQueue]
  · simp only [processRetryQueue]
    split
    · rfl
    · split
      · rfl
      · split
        · rfl
        · rfl

/-- Witness for the amended C5 at `sampleSt`. -/
theorem eventLog_spec_witness :
    sampleSt.events.length ≤ 100 ∧
    ((storeEvent "ProblemProgress" emptyPayload 9 sampleSt).events.length
      = min (sampleSt.events.length + 1) 100 ∧
    List.IsSuffix (storeEvent "ProblemProgress" emptyPayload 9 sampleSt).events
      (sampleSt.events ++ [("ProblemProgress", emptyPayload, 9)]) ∧
    (postEventOk sampleSt.settings true = true →
      (safePostEvent "ProblemProgress" emptyPayload none true 9 2 sampleSt).events
        = (storeEvent "ProblemProgress" emptyPayload 9 sampleSt).events) ∧
    (postEventOk sampleSt.settings true = false →
      (safePostEvent "ProblemProgress" emptyPayload none true 9 2 sampleSt).events
        = sampleSt.events) ∧
    (processRetryQueue true 9 (fun _ => true) (fun _ => 9) (fun _ => 0) sampleSt).events
      = sampleSt.events) :=
  ⟨by decide, eventLog_spec sampleSt "ProblemProgress" emptyPayload none true true 9 2 9
    (fun _ => true) (fun _ => 9) (fun _ => 0) (by decide)⟩

end BackgroundMgr
